import Mathlib

/-!
# Verification of the `sotaog_public_api_client` client class

Shallow embedding of `src/sotaog_public_api_client/__init__.py`.

The client is a thin wrapper over an HTTP session.  We model:

* server responses as a status code plus a JSON body (`Response`);
* Python exceptions that the client code can raise (`PyExc`):
  the library's own `Client_Exception`, the bare `Exception` used by
  `post_datapoints`, and the `KeyError`/`TypeError` that subscripting
  a mapping can raise;
* every method's response handling as a function
  `Response → Except PyExc result`, keeping the source's branching,
  messages and evaluation order;
* every method's outgoing request: the URL it builds from the
  normalized base URL, and the query-parameter / JSON-body mapping it
  assembles from its optional arguments (insertion order preserved).

Optional Python arguments are modelled as `Option` values; passing
`none` is Python's `None`.  An omitted argument is the default value of
the Python signature (`none` for `= None` defaults, `some "desc"` /
`some 100` for `sort='desc'` / `limit=100`, `[]` for the `datatypes=[]`
default).  Python truthiness tests (`if x:`) become the `truthy*`
helpers.
-/

namespace Sotaog

/-- JSON values as returned by the server and sent in request bodies. -/
inductive Json where
  | str : String → Json
  | num : Int → Json
  | null : Json
  | arr : List Json → Json
  | obj : List (String × Json) → Json

/-- Python exceptions the client code can raise.
`clientException` is the library's `Client_Exception`; `baseException`
is the bare built-in `Exception`; `keyError` / `typeError` arise from
subscripting and membership tests. -/
inductive PyExc where
  | clientException : String → PyExc
  | baseException : String → PyExc
  | keyError : String → PyExc
  | typeError : PyExc
deriving DecidableEq

/-- Is an exception the library's own `Client_Exception`? -/
def PyExc.isClientError : PyExc → Bool
  | .clientException _ => true
  | _ => false

/-- An HTTP response: status code and (already parsed) JSON body. -/
structure Response where
  status : Nat
  body : Json

/-- First binding of a key in a JSON object's field list (Python dict
keys are unique, so first match is the value). -/
def lookupField : List (String × Json) → String → Option Json
  | [], _ => none
  | (k, v) :: rest, key => if k = key then some v else lookupField rest key

/-- Pure dictionary lookup, `none` when absent or not an object. -/
def Json.get? : Json → String → Option Json
  | .obj fields, key => lookupField fields key
  | _, _ => none

/-- Python subscript `j[key]`: `KeyError` when the key is absent,
`TypeError` when `j` is not a mapping. -/
def Json.getItem : Json → String → Except PyExc Json
  | .obj fields, key =>
    match lookupField fields key with
    | some v => .ok v
    | none => .error (.keyError key)
  | _, _ => .error .typeError

/-- Python `j == s` for a string literal `s`: value equality on
strings, `False` against any other JSON value. -/
def Json.eqStr : Json → String → Bool
  | .str t, s => t == s
  | _, _ => false

/-- Contiguous-sublist test for the string case of Python `in`. -/
def charsInfixOf (needle : List Char) : List Char → Bool
  | [] => needle.isEmpty
  | c :: rest => needle.isPrefixOf (c :: rest) || charsInfixOf needle rest

/-- Python membership `s in j`: key membership for mappings, element
equality for sequences, substring test for strings, `TypeError`
otherwise. -/
def Json.pyContains : Json → String → Except PyExc Bool
  | .obj fields, s => .ok (fields.any (fun kv => kv.1 == s))
  | .arr xs, s => .ok (xs.any (fun v => v.eqStr s))
  | .str t, s => .ok (charsInfixOf s.data t.data)
  | _, _ => .error .typeError

/-- Truthiness of an optional string (`if x:` in Python): `None` and
`''` are falsy. -/
def truthyStr : Option String → Bool
  | none => false
  | some s => !s.isEmpty

/-- Truthiness of an optional integer: `None` and `0` are falsy. -/
def truthyInt : Option Int → Bool
  | none => false
  | some n => n != 0

/-- Truthiness of a list argument: the empty list is falsy. -/
def truthyList (xs : List String) : Bool :=
  !xs.isEmpty

/-- Python `str()` of an optional string, as interpolated by f-strings:
`None` prints as `"None"`. -/
def pyStrOpt : Option String → String
  | none => "None"
  | some s => s

/-- A Python list comprehension `[x for x in xs if p x]` whose filter
expression may raise: elements are tested left to right and the first
exception aborts the comprehension. -/
def exceptFilter (p : Json → Except PyExc Bool) : List Json → Except PyExc (List Json)
  | [] => .ok []
  | x :: xs =>
    match p x with
    | .error e => .error e
    | .ok b =>
      match exceptFilter p xs with
      | .error e => .error e
      | .ok rest => .ok (if b then x :: rest else rest)

/-- `url.rstrip('/')`: drop every trailing `'/'`. -/
def pyRstripSlash (s : String) : String :=
  ⟨(s.data.reverse.dropWhile (fun c => c == '/')).reverse⟩

/-- The state a constructed `Client` holds: normalized base URL,
optional customer id, and the bearer token taken from the
authentication response. -/
structure Client where
  url : String
  customer_id : Option String
  token : Json

/-- `Client.__init__`, as a function of the response to the
authenticate POST: on status 200 store `result.json()['access_token']`
(subscripting may itself raise), on any other status raise
`Client_Exception('Unable to authenticate to API')`.  The base URL is
normalized with `rstrip('/')` before the request is sent. -/
def Client.init (url : String) (customer_id : Option String) (resp : Response) :
    Except PyExc Client :=
  let base := pyRstripSlash url
  if resp.status = 200 then
    match resp.body.getItem "access_token" with
    | .ok tok => .ok { url := base, customer_id := customer_id, token := tok }
    | .error e => .error e
  else
    .error (.clientException "Unable to authenticate to API")

/-- `Client._get_headers`: always the bearer header, plus the customer
header when `self.customer_id` is truthy.  The token is interpolated
into the bearer value; we pass its string form. -/
def getHeaders (token : String) (customer_id : Option String) : List (String × String) :=
  ("authorization", "Bearer " ++ token) ::
    (if truthyStr customer_id then [("x-sotaog-customer-id", customer_id.getD "")] else [])

/-! ## Request URLs

Each function takes the client's stored (already normalized) base URL
and mirrors the f-string of the corresponding method. -/

def authenticate_url (base : String) : String := base ++ "/v1/authenticate"

def alarm_services_url (base : String) : String := base ++ "/v1/alarm-services"

def alarm_service_url (base id : String) : String := base ++ "/v1/alarm-services/" ++ id

def alarms_url (base : String) : String := base ++ "/v1/alarms"

def alarm_url (base asset_id : String) (datatype : Option String) : String :=
  base ++ "/v1/alarms/" ++ asset_id ++
    (if truthyStr datatype then "/" ++ datatype.getD "" else "")

def facilities_url (base : String) : String := base ++ "/v1/facilities"

def facility_url (base id : String) : String := base ++ "/v1/facilities/" ++ id

def asset_url (base ty asset_id : String) : String :=
  base ++ "/v1/" ++ ty ++ "/" ++ asset_id

def assets_url (base ty : String) : String := base ++ "/v1/" ++ ty

def datatypes_url (base : String) : String := base ++ "/v1/datatypes"

def datatype_url (base id : String) : String := base ++ "/v1/datatypes/" ++ id

def datapoints_url (base : String) : String := base ++ "/v1/datapoints"

def asset_datapoints_url (base asset_id : String) : String :=
  base ++ "/v1/datapoints/" ++ asset_id

def swd_networks_url (base : String) : String := base ++ "/v1/swd-networks"

def truck_tickets_url (base : String) : String := base ++ "/v1/truck-tickets"

def post_datapoints_url (base asset_id : String) : String :=
  base ++ "/v1/datapoints/" ++ asset_id

/-! ## Query parameters and JSON bodies

Entries appear in the dict-insertion order of the source. -/

/-- `get_datatypes` builds `params = {}` and then, under
`if group_by:`, executes `params['group_by']: group_by` — a bare
subscripted type ascription statement, which assigns nothing.  Both
branches therefore leave `params` empty.  The Python default for
`group_by` is `'asset'` (i.e. `some "asset"` when omitted). -/
def get_datatypes_params (group_by : Option String) : List (String × Json) :=
  if truthyStr group_by then [] else []

/-- `get_datatype` always sends `{'group_by': 'asset'}`. -/
def get_datatype_params : List (String × Json) :=
  [("group_by", .str "asset")]

/-- JSON body of `get_datapoints` (bulk read).  Python defaults:
`start_ts=None`, `end_ts=None`, `sort='desc'`, `limit=100`; an omitted
argument is its default. -/
def get_datapoints_body (asset_datatypes : Json) (start_ts end_ts : Option Int)
    (sort : Option String) (limit : Option Int) : List (String × Json) :=
  ("asset_datatypes", asset_datatypes) ::
    ((if truthyInt start_ts then [("start_ts", .num (start_ts.getD 0))] else []) ++
     (if truthyInt end_ts then [("end_ts", .num (end_ts.getD 0))] else []) ++
     (if truthyStr sort then [("sort", .str (sort.getD ""))] else []) ++
     (if truthyInt limit then [("limit", .num (limit.getD 0))] else []))

/-- Query parameters of `get_asset_datapoints`.  Python defaults:
`datatypes=[]`, `start_ts=None`, `end_ts=None`, `sort='desc'`,
`limit=100`. -/
def get_asset_datapoints_params (datatypes : List String) (start_ts end_ts : Option Int)
    (sort : Option String) (limit : Option Int) : List (String × Json) :=
  (if truthyList datatypes then [("datatypes", .arr (datatypes.map .str))] else []) ++
    (if truthyInt start_ts then [("start_ts", .num (start_ts.getD 0))] else []) ++
    (if truthyInt end_ts then [("end_ts", .num (end_ts.getD 0))] else []) ++
    (if truthyStr sort then [("sort", .str (sort.getD ""))] else []) ++
    (if truthyInt limit then [("limit", .num (limit.getD 0))] else [])

/-- Query parameters of `get_truck_tickets`.  All four arguments
default to `None`; insertion order is `start_ts`, `end_ts`, `type`,
`facility`. -/
def get_truck_tickets_params (facility ty : Option String)
    (start_ts end_ts : Option Int) : List (String × Json) :=
  (if truthyInt start_ts then [("start_ts", .num (start_ts.getD 0))] else []) ++
    (if truthyInt end_ts then [("end_ts", .num (end_ts.getD 0))] else []) ++
    (if truthyStr ty then [("type", .str (ty.getD ""))] else []) ++
    (if truthyStr facility then [("facility", .str (facility.getD ""))] else [])

/-! ## Response handling of each method

Each `Response → Except PyExc _` function is the part of the Python
method after the HTTP call returns, with the source's status test,
filtering and error message. -/

def get_alarm_services (resp : Response) : Except PyExc Json :=
  if resp.status = 200 then .ok resp.body
  else .error (.clientException "Unable to retrieve alarm services")

def get_alarm_service (alarm_service_id : String) (resp : Response) : Except PyExc Json :=
  if resp.status = 200 then .ok resp.body
  else .error (.clientException ("Unable to retrieve alarm service " ++ alarm_service_id))

def get_alarms (resp : Response) : Except PyExc Json :=
  if resp.status = 200 then .ok resp.body
  else .error (.clientException "Unable to retrieve alarms")

def get_alarm (asset_id : String) (resp : Response) : Except PyExc Json :=
  if resp.status = 200 then .ok resp.body
  else .error (.clientException ("Unable to retrieve alarms for " ++ asset_id))

def get_facilities (resp : Response) : Except PyExc Json :=
  if resp.status = 200 then .ok resp.body
  else .error (.clientException "Unable to retrieve facilities")

def get_facility (facility_id : String) (resp : Response) : Except PyExc Json :=
  if resp.status = 200 then .ok resp.body
  else .error (.clientException ("Unable to retrieve facility " ++ facility_id))

def get_asset (asset_id ty : String) (resp : Response) : Except PyExc Json :=
  if resp.status = 200 then .ok resp.body
  else .error (.clientException
    ("Unable to retrieve asset " ++ asset_id ++ " of type " ++ ty))

/-- Filter expression of the `get_assets` comprehensions:
`key in asset and asset[key] == value`, with Python short-circuiting
and exception propagation. -/
def assetFieldTest (key value : String) (a : Json) : Except PyExc Bool :=
  match a.pyContains key with
  | .error e => .error e
  | .ok false => .ok false
  | .ok true =>
    match a.getItem key with
    | .error e => .error e
    | .ok v => .ok (v.eqStr value)

/-- `get_assets`: on 200, the parsed list is filtered by `facility`
and then by `asset_type`, each only when the argument is truthy.  The
error message interpolates `asset_type` (not `type`), as the source
does. -/
def get_assets (facility asset_type : Option String) (resp : Response) :
    Except PyExc (List Json) :=
  if resp.status = 200 then
    match resp.body with
    | .arr assets =>
      match (if truthyStr facility then
               exceptFilter (assetFieldTest "facility" (facility.getD "")) assets
             else .ok assets) with
      | .error e => .error e
      | .ok assets =>
        if truthyStr asset_type then
          exceptFilter (assetFieldTest "asset_type" (asset_type.getD "")) assets
        else .ok assets
    | _ => .error .typeError
  else
    .error (.clientException ("Unable to retrieve assets of type " ++ pyStrOpt asset_type))

def get_datatypes (resp : Response) : Except PyExc Json :=
  if resp.status = 200 then .ok resp.body
  else .error (.clientException "Unable to get datatypes")

def get_datatype (datatype_id : String) (resp : Response) : Except PyExc Json :=
  if resp.status = 200 then .ok resp.body
  else .error (.clientException ("Unable to get datatype " ++ datatype_id))

def get_datapoints (resp : Response) : Except PyExc Json :=
  if resp.status = 200 then .ok resp.body
  else .error (.clientException "Unable to get datapoints")

def get_asset_datapoints (resp : Response) : Except PyExc Json :=
  if resp.status = 200 then .ok resp.body
  else .error (.clientException "Unable to get datapoints")

/-- `get_swd_networks`: on 200, when `facility` is truthy the list is
filtered by `facility in swd_network['facilities']`; the subscript is
unguarded, so a record without the key raises `KeyError`. -/
def get_swd_networks (facility : Option String) (resp : Response) :
    Except PyExc (List Json) :=
  if resp.status = 200 then
    match resp.body with
    | .arr nets =>
      if truthyStr facility then
        exceptFilter
          (fun net =>
            match net.getItem "facilities" with
            | .error e => .error e
            | .ok v => v.pyContains (facility.getD "")) nets
      else .ok nets
    | _ => .error .typeError
  else
    .error (.clientException "Unable to retrieve SWD networks")

def get_truck_tickets (resp : Response) : Except PyExc Json :=
  if resp.status = 200 then .ok resp.body
  else .error (.clientException "Unable to retrieve truck tickets")

/-- `post_datapoints`: any status other than 202 raises the built-in
`Exception` (not `Client_Exception`); on 202 the method returns
`None`. -/
def post_datapoints (resp : Response) : Except PyExc Unit :=
  if resp.status ≠ 202 then .error (.baseException "Unable to post datapoints")
  else .ok ()

/-! ## Spec-side filter descriptions

These follow the specification's wording ("records that have the field
present and equal to the supplied value", "records whose `facilities`
collection contains the requested facility") and are compared with the
functions above. -/

/-- A record has field `key` present and equal to the string `f`. -/
def specFieldEq (key f : String) (a : Json) : Bool :=
  match a.get? key with
  | some v => v.eqStr f
  | none => false

/-- The spec's description of the `get_assets` client-side filtering:
exact-match filter on `facility` then `asset_type`, each applied when
the corresponding value is supplied, keeping the original order. -/
def specAssetsFilter (facility asset_type : Option String) (xs : List Json) : List Json :=
  let xs' := match facility with
    | some f => xs.filter (specFieldEq "facility" f)
    | none => xs
  match asset_type with
  | some t => xs'.filter (specFieldEq "asset_type" t)
  | none => xs'

/-- A record's `facilities` collection contains the facility `f`. -/
def specFacilitiesHas (f : String) (net : Json) : Bool :=
  match net.get? "facilities" with
  | some (.arr ys) => ys.any (fun v => v.eqStr f)
  | _ => false

/-- The spec's description of the `get_swd_networks` filtering. -/
def specSwdFilter (facility : Option String) (xs : List Json) : List Json :=
  match facility with
  | some f => xs.filter (specFacilitiesHas f)
  | none => xs

/-! ## Helper lemmas -/

theorem isEmpty_false_of_ne (f : String) (h : f ≠ "") : f.isEmpty = false := by
  cases hval : f.isEmpty
  · rfl
  · exact absurd ((String.isEmpty_iff f).mp hval) h

theorem truthyStr_of_ne (f : String) (h : f ≠ "") : truthyStr (some f) = true := by
  simp [truthyStr, isEmpty_false_of_ne f h]

theorem lookupField_any_key (fields : List (String × Json)) (k : String) :
    fields.any (fun kv => kv.1 == k) = (lookupField fields k).isSome := by
  induction fields with
  | nil => simp [lookupField]
  | cons kv rest ih =>
    obtain ⟨k', v⟩ := kv
    by_cases h : k' = k <;> simp [lookupField, h, ih]

theorem getItem_eq_ok_iff (j v : Json) (k : String) :
    j.getItem k = .ok v ↔ j.get? k = some v := by
  cases j <;> simp [Json.getItem, Json.get?]
  case obj fields => cases h : lookupField fields k <;> simp [h]

theorem assetFieldTest_obj (key value : String) (fields : List (String × Json)) :
    assetFieldTest key value (.obj fields) =
      .ok (specFieldEq key value (.obj fields)) := by
  simp only [assetFieldTest, Json.pyContains, specFieldEq, Json.get?,
    lookupField_any_key]
  cases h : lookupField fields key <;> simp [h, Json.getItem]

theorem exceptFilter_congr (p : Json → Except PyExc Bool) (q : Json → Bool)
    (xs : List Json) (h : ∀ a ∈ xs, p a = .ok (q a)) :
    exceptFilter p xs = .ok (xs.filter q) := by
  induction xs with
  | nil => simp [exceptFilter]
  | cons x rest ih =>
    have hx := h x (by simp)
    have hrest := ih (fun a ha => h a (by simp [ha]))
    simp [exceptFilter, hx, hrest, List.filter]
    cases q x <;> simp

theorem assetsStage (key f : String) (xs : List Json)
    (hobj : ∀ a ∈ xs, ∃ fields, a = Json.obj fields) :
    exceptFilter (assetFieldTest key f) xs = .ok (xs.filter (specFieldEq key f)) := by
  apply exceptFilter_congr
  intro a ha
  obtain ⟨fields, rfl⟩ := hobj a ha
  exact assetFieldTest_obj key f fields

theorem pyRstripSlash_append_slash (u : String) :
    pyRstripSlash (u ++ "/") = pyRstripSlash u := by
  cases u with
  | mk data =>
    show pyRstripSlash ⟨data ++ ['/']⟩ = pyRstripSlash ⟨data⟩
    simp [pyRstripSlash, List.dropWhile_cons]

/-! ## Claims -/

/-- C1: constructing a `Client` succeeds exactly when the authenticate
response has status 200 (given the body carries an `access_token`
field, as the claim presupposes); on 200 the stored token is that
field's value, and on any non-200 status construction raises the
client error, so no `Client` value exists. -/
theorem C1_client_init (url : String) (customer_id : Option String) (resp : Response)
    (tok : Json) (h : resp.body.get? "access_token" = some tok) :
    ((∃ c, Client.init url customer_id resp = .ok c) ↔ resp.status = 200) ∧
    (resp.status = 200 →
      Client.init url customer_id resp = .ok ⟨pyRstripSlash url, customer_id, tok⟩) ∧
    (resp.status ≠ 200 →
      Client.init url customer_id resp =
        .error (.clientException "Unable to authenticate to API")) := by
  have hitem : resp.body.getItem "access_token" = .ok tok :=
    (getItem_eq_ok_iff resp.body tok "access_token").mpr h
  by_cases hs : resp.status = 200
  · simp [Client.init, hs, hitem]
  · simp [Client.init, hs]

/-- Witness for C1 at a concrete 200 response carrying a token. -/
theorem C1_client_init_witness :
    (Json.obj [("access_token", Json.str "T")]).get? "access_token" =
      some (Json.str "T") ∧
    Client.init "http://x/" none ⟨200, Json.obj [("access_token", Json.str "T")]⟩ =
      .ok ⟨"http://x", none, Json.str "T"⟩ :=
  ⟨rfl,
    (C1_client_init "http://x/" none ⟨200, Json.obj [("access_token", Json.str "T")]⟩
      (Json.str "T") rfl).2.1 rfl⟩

/-- C2: `post_datapoints` returns normally (with no value) exactly when
the response status is 202; every other status, 200 and 201 included,
raises. -/
theorem C2_post_datapoints (resp : Response) :
    (post_datapoints resp = .ok () ↔ resp.status = 202) ∧
    (resp.status ≠ 202 →
      post_datapoints resp = .error (.baseException "Unable to post datapoints")) := by
  by_cases hs : resp.status = 202 <;> simp [post_datapoints, hs]

/-- Witness for C2: a 200 response raises. -/
theorem C2_post_datapoints_witness :
    (200 : Nat) ≠ 202 ∧
    post_datapoints ⟨200, Json.obj []⟩ =
      .error (.baseException "Unable to post datapoints") :=
  ⟨by decide, (C2_post_datapoints ⟨200, Json.obj []⟩).2 (by decide)⟩

/-- C3 counterexample: `post_datapoints` raises the bare built-in
`Exception`, not `Client_Exception`, on a status failure. -/
theorem C3_counterexample :
    post_datapoints ⟨500, Json.obj []⟩ =
      .error (.baseException "Unable to post datapoints") ∧
    PyExc.isClientError (.baseException "Unable to post datapoints") = false :=
  ⟨rfl, rfl⟩

/-- C3 (amended): authentication and every read operation raise
`Client_Exception` with a message naming the operation/resource on a
non-200 status; `post_datapoints` alone raises the bare `Exception`
kind on a non-202 status. -/
theorem C3_error_kinds (resp : Response) (u sid aid fid dtid ty : String)
    (cid facility asset_type : Option String)
    (h200 : resp.status ≠ 200) (h202 : resp.status ≠ 202) :
    Client.init u cid resp =
      .error (.clientException "Unable to authenticate to API") ∧
    get_alarm_services resp =
      .error (.clientException "Unable to retrieve alarm services") ∧
    get_alarm_service sid resp =
      .error (.clientException ("Unable to retrieve alarm service " ++ sid)) ∧
    get_alarms resp = .error (.clientException "Unable to retrieve alarms") ∧
    get_alarm aid resp =
      .error (.clientException ("Unable to retrieve alarms for " ++ aid)) ∧
    get_facilities resp = .error (.clientException "Unable to retrieve facilities") ∧
    get_facility fid resp =
      .error (.clientException ("Unable to retrieve facility " ++ fid)) ∧
    get_asset aid ty resp =
      .error (.clientException
        ("Unable to retrieve asset " ++ aid ++ " of type " ++ ty)) ∧
    get_assets facility asset_type resp =
      .error (.clientException
        ("Unable to retrieve assets of type " ++ pyStrOpt asset_type)) ∧
    get_datatypes resp = .error (.clientException "Unable to get datatypes") ∧
    get_datatype dtid resp =
      .error (.clientException ("Unable to get datatype " ++ dtid)) ∧
    get_datapoints resp = .error (.clientException "Unable to get datapoints") ∧
    get_asset_datapoints resp =
      .error (.clientException "Unable to get datapoints") ∧
    get_swd_networks facility resp =
      .error (.clientException "Unable to retrieve SWD networks") ∧
    get_truck_tickets resp =
      .error (.clientException "Unable to retrieve truck tickets") ∧
    post_datapoints resp = .error (.baseException "Unable to post datapoints") := by
  simp [Client.init, get_alarm_services, get_alarm_service, get_alarms, get_alarm,
    get_facilities, get_facility, get_asset, get_assets, get_datatypes, get_datatype,
    get_datapoints, get_asset_datapoints, get_swd_networks, get_truck_tickets,
    post_datapoints, h200, h202]

/-- Witness for C3 at a concrete 500 response. -/
theorem C3_error_kinds_witness :
    ((500 : Nat) ≠ 200 ∧ (500 : Nat) ≠ 202) ∧
    (Client.init "http://x" none ⟨500, Json.obj []⟩ =
        .error (.clientException "Unable to authenticate to API") ∧
      get_alarm_services ⟨500, Json.obj []⟩ =
        .error (.clientException "Unable to retrieve alarm services") ∧
      get_alarm_service "s" ⟨500, Json.obj []⟩ =
        .error (.clientException ("Unable to retrieve alarm service " ++ "s")) ∧
      get_alarms ⟨500, Json.obj []⟩ =
        .error (.clientException "Unable to retrieve alarms") ∧
      get_alarm "a" ⟨500, Json.obj []⟩ =
        .error (.clientException ("Unable to retrieve alarms for " ++ "a")) ∧
      get_facilities ⟨500, Json.obj []⟩ =
        .error (.clientException "Unable to retrieve facilities") ∧
      get_facility "f" ⟨500, Json.obj []⟩ =
        .error (.clientException ("Unable to retrieve facility " ++ "f")) ∧
      get_asset "a" "t" ⟨500, Json.obj []⟩ =
        .error (.clientException
          ("Unable to retrieve asset " ++ "a" ++ " of type " ++ "t")) ∧
      get_assets none none ⟨500, Json.obj []⟩ =
        .error (.clientException
          ("Unable to retrieve assets of type " ++ pyStrOpt none)) ∧
      get_datatypes ⟨500, Json.obj []⟩ =
        .error (.clientException "Unable to get datatypes") ∧
      get_datatype "d" ⟨500, Json.obj []⟩ =
        .error (.clientException ("Unable to get datatype " ++ "d")) ∧
      get_datapoints ⟨500, Json.obj []⟩ =
        .error (.clientException "Unable to get datapoints") ∧
      get_asset_datapoints ⟨500, Json.obj []⟩ =
        .error (.clientException "Unable to get datapoints") ∧
      get_swd_networks none ⟨500, Json.obj []⟩ =
        .error (.clientException "Unable to retrieve SWD networks") ∧
      get_truck_tickets ⟨500, Json.obj []⟩ =
        .error (.clientException "Unable to retrieve truck tickets") ∧
      post_datapoints ⟨500, Json.obj []⟩ =
        .error (.baseException "Unable to post datapoints")) :=
  ⟨⟨by decide, by decide⟩,
    C3_error_kinds ⟨500, Json.obj []⟩ "http://x" "s" "a" "f" "d" "t" none none none
      (by decide) (by decide)⟩

/-- C4 counterexample: an explicitly supplied empty-string facility is
falsy in Python, so `get_assets` performs no filtering; the claim, read
over every supplied value, instead demands exactly the records whose
`facility` field equals `""`, which here is no record at all. -/
theorem C4_counterexample :
    get_assets (some "") none
        ⟨200, Json.arr [Json.obj [("facility", Json.str "X")]]⟩ =
      .ok [Json.obj [("facility", Json.str "X")]] ∧
    specAssetsFilter (some "") none [Json.obj [("facility", Json.str "X")]] = [] :=
  ⟨rfl, rfl⟩

/-- C4 (amended): for a 200 response whose body is a list of JSON
objects, `get_assets` with non-empty supplied `facility` and/or
`asset_type` values returns exactly the records with the corresponding
field present and equal to the supplied value, in their original
order; with neither supplied the list is returned unmodified. -/
theorem C4_get_assets_filter (facility asset_type : Option String) (xs : List Json)
    (hf : facility ≠ some "") (ht : asset_type ≠ some "")
    (hobj : ∀ a ∈ xs, ∃ fields, a = Json.obj fields) :
    get_assets facility asset_type ⟨200, Json.arr xs⟩ =
      .ok (specAssetsFilter facility asset_type xs) := by
  rcases facility with _ | f
  · rcases asset_type with _ | t
    · simp [get_assets, truthyStr, specAssetsFilter]
    · have htE : t.isEmpty = false := isEmpty_false_of_ne t (fun hh => ht (by rw [hh]))
      simp [get_assets, truthyStr, htE, specAssetsFilter,
        assetsStage "asset_type" t xs hobj]
  · have hfE : f.isEmpty = false := isEmpty_false_of_ne f (fun hh => hf (by rw [hh]))
    have h1 := assetsStage "facility" f xs hobj
    have hobj' : ∀ a ∈ xs.filter (specFieldEq "facility" f),
        ∃ fields, a = Json.obj fields :=
      fun a ha => hobj a (List.mem_of_mem_filter ha)
    rcases asset_type with _ | t
    · simp [get_assets, truthyStr, hfE, specAssetsFilter, h1]
    · have htE : t.isEmpty = false := isEmpty_false_of_ne t (fun hh => ht (by rw [hh]))
      have h2 := assetsStage "asset_type" t _ hobj'
      simp [get_assets, truthyStr, hfE, htE, specAssetsFilter, h1, h2]

/-- Witness for C4 on the spec's mock list: only the `F1` record
survives the facility filter. -/
theorem C4_get_assets_filter_witness :
    ((some "F1" : Option String) ≠ some "" ∧ (none : Option String) ≠ some "") ∧
    get_assets (some "F1") none
        ⟨200, Json.arr [Json.obj [("facility", Json.str "F1")],
                        Json.obj [("facility", Json.str "F2")]]⟩ =
      .ok [Json.obj [("facility", Json.str "F1")]] :=
  ⟨⟨by decide, by decide⟩,
    (C4_get_assets_filter (some "F1") none
        [Json.obj [("facility", Json.str "F1")],
         Json.obj [("facility", Json.str "F2")]]
        (by decide) (by decide)
        (by
          intro a ha
          simp at ha
          rcases ha with rfl | rfl
          · exact ⟨_, rfl⟩
          · exact ⟨_, rfl⟩)).trans (by rfl)⟩

/-- C5 counterexample: an explicitly supplied empty-string facility is
falsy, so `get_swd_networks` skips the filter and returns the full
list; the claim, read over every supplied value, instead demands the
records whose `facilities` collection contains `""`, which here is no
record. -/
theorem C5_counterexample :
    get_swd_networks (some "")
        ⟨200, Json.arr [Json.obj [("facilities", Json.arr [Json.str "F1"])]]⟩ =
      .ok [Json.obj [("facilities", Json.arr [Json.str "F1"])]] ∧
    specSwdFilter (some "") [Json.obj [("facilities", Json.arr [Json.str "F1"])]] =
      [] :=
  ⟨rfl, rfl⟩

/-- C5 (amended): for a 200 response whose body is a list of records
each carrying a `facilities` array, `get_swd_networks` with a
non-empty supplied facility returns exactly the records whose
`facilities` collection contains it, in their original order; with no
facility supplied the list is returned unmodified. -/
theorem C5_get_swd_networks_filter (facility : Option String) (xs : List Json)
    (hf : facility ≠ some "")
    (harr : ∀ net ∈ xs, ∃ ys, net.get? "facilities" = some (Json.arr ys)) :
    get_swd_networks facility ⟨200, Json.arr xs⟩ = .ok (specSwdFilter facility xs) := by
  rcases facility with _ | f
  · simp [get_swd_networks, truthyStr, specSwdFilter]
  · have hff : f ≠ "" := fun hh => hf (by rw [hh])
    have hcongr : ∀ net ∈ xs,
        (match net.getItem "facilities" with
          | .error e => (.error e : Except PyExc Bool)
          | .ok v => v.pyContains f) = Except.ok (specFacilitiesHas f net) := by
      intro net hnet
      obtain ⟨ys, hys⟩ := harr net hnet
      have hitem : net.getItem "facilities" = .ok (Json.arr ys) :=
        (getItem_eq_ok_iff net (Json.arr ys) "facilities").mpr hys
      simp [hitem, Json.pyContains, specFacilitiesHas, hys]
    simp [get_swd_networks, truthyStr_of_ne f hff, specSwdFilter,
      exceptFilter_congr _ _ xs hcongr]

/-- Witness for C5 on the spec's mock list: only the record whose
`facilities` contains `F1` survives. -/
theorem C5_get_swd_networks_filter_witness :
    ((some "F1" : Option String) ≠ some "") ∧
    get_swd_networks (some "F1")
        ⟨200, Json.arr
          [Json.obj [("facilities", Json.arr [Json.str "F1", Json.str "F2"])],
           Json.obj [("facilities", Json.arr [Json.str "F3"])]]⟩ =
      .ok [Json.obj [("facilities", Json.arr [Json.str "F1", Json.str "F2"])]] :=
  ⟨by decide,
    (C5_get_swd_networks_filter (some "F1")
        [Json.obj [("facilities", Json.arr [Json.str "F1", Json.str "F2"])],
         Json.obj [("facilities", Json.arr [Json.str "F3"])]]
        (by decide)
        (by
          intro net hnet
          simp at hnet
          rcases hnet with rfl | rfl
          · exact ⟨_, rfl⟩
          · exact ⟨_, rfl⟩)).trans (by rfl)⟩

/-- C9: on a 200 response containing a record without a `facilities`
key, `get_swd_networks` with a facility supplied raises `KeyError`
from the unguarded subscript — not the client error — while
`get_assets`, whose filter guards for field presence, filters the same
record out without raising. -/
theorem C9_swd_keyerror :
    get_swd_networks (some "F1") ⟨200, Json.arr [Json.obj []]⟩ =
      .error (.keyError "facilities") ∧
    PyExc.isClientError (.keyError "facilities") = false ∧
    get_assets (some "F1") none ⟨200, Json.arr [Json.obj []]⟩ = .ok [] :=
  ⟨rfl, rfl, rfl⟩

/-- C6 counterexample: with every optional argument of
`get_datapoints` omitted (so the Python defaults `sort='desc'`,
`limit=100` apply), the outgoing JSON body does carry `sort` and
`limit` keys — omission does not leave those keys out. -/
theorem C6_counterexample :
    (get_datapoints_body (Json.obj []) none none (some "desc") (some 100)).map
        Prod.fst = ["asset_datatypes", "sort", "limit"] ∧
    "sort" ∈ (get_datapoints_body (Json.obj []) none none
        (some "desc") (some 100)).map Prod.fst ∧
    "limit" ∈ (get_datapoints_body (Json.obj []) none none
        (some "desc") (some 100)).map Prod.fst :=
  ⟨rfl, by decide, by decide⟩

/-- C6 (amended): every optional argument whose Python default is
`None` (or the empty list), when omitted, produces no corresponding
key in the outgoing query parameters or JSON body and no optional
header or URL segment; `sort` and `limit`, whose defaults are the
truthy `'desc'` and `100`, are sent with those default values when
omitted. -/
theorem C6_omitted_optionals :
    (∀ tok : String, getHeaders tok none = [("authorization", "Bearer " ++ tok)]) ∧
    get_truck_tickets_params none none none none = [] ∧
    (∀ adt : Json, get_datapoints_body adt none none (some "desc") (some 100) =
      [("asset_datatypes", adt), ("sort", Json.str "desc"), ("limit", Json.num 100)]) ∧
    get_asset_datapoints_params [] none none (some "desc") (some 100) =
      [("sort", Json.str "desc"), ("limit", Json.num 100)] ∧
    (∀ base aid : String, alarm_url base aid none = base ++ "/v1/alarms/" ++ aid) :=
  ⟨fun _ => rfl, rfl, fun _ => rfl, rfl,
    fun _ _ => by simp [alarm_url, truthyStr]⟩

/-- C7: `get_datatypes` sends an empty query-parameter mapping for
every `group_by` argument (supplied or the default `'asset'`): the
statement at the source's line 137 is a bare ascription that assigns
nothing, so the value is discarded. -/
theorem C7_datatypes_group_by_discarded (group_by : Option String) :
    get_datatypes_params group_by = [] := by
  unfold get_datatypes_params
  split <;> rfl

/-- C8: a base URL with a trailing slash is normalized to the same
stored URL as without it, so every operation's request URL is
identical for the two constructions. -/
theorem C8_trailing_slash (u sid aid fid dtid ty : String)
    (datatype : Option String) :
    pyRstripSlash (u ++ "/") = pyRstripSlash u ∧
    authenticate_url (pyRstripSlash (u ++ "/")) = authenticate_url (pyRstripSlash u) ∧
    alarm_services_url (pyRstripSlash (u ++ "/")) =
      alarm_services_url (pyRstripSlash u) ∧
    alarm_service_url (pyRstripSlash (u ++ "/")) sid =
      alarm_service_url (pyRstripSlash u) sid ∧
    alarms_url (pyRstripSlash (u ++ "/")) = alarms_url (pyRstripSlash u) ∧
    alarm_url (pyRstripSlash (u ++ "/")) aid datatype =
      alarm_url (pyRstripSlash u) aid datatype ∧
    facilities_url (pyRstripSlash (u ++ "/")) = facilities_url (pyRstripSlash u) ∧
    facility_url (pyRstripSlash (u ++ "/")) fid = facility_url (pyRstripSlash u) fid ∧
    asset_url (pyRstripSlash (u ++ "/")) ty aid = asset_url (pyRstripSlash u) ty aid ∧
    assets_url (pyRstripSlash (u ++ "/")) ty = assets_url (pyRstripSlash u) ty ∧
    datatypes_url (pyRstripSlash (u ++ "/")) = datatypes_url (pyRstripSlash u) ∧
    datatype_url (pyRstripSlash (u ++ "/")) dtid =
      datatype_url (pyRstripSlash u) dtid ∧
    datapoints_url (pyRstripSlash (u ++ "/")) = datapoints_url (pyRstripSlash u) ∧
    asset_datapoints_url (pyRstripSlash (u ++ "/")) aid =
      asset_datapoints_url (pyRstripSlash u) aid ∧
    swd_networks_url (pyRstripSlash (u ++ "/")) = swd_networks_url (pyRstripSlash u) ∧
    truck_tickets_url (pyRstripSlash (u ++ "/")) =
      truck_tickets_url (pyRstripSlash u) ∧
    post_datapoints_url (pyRstripSlash (u ++ "/")) aid =
      post_datapoints_url (pyRstripSlash u) aid := by
  simp [pyRstripSlash_append_slash]

/-- C10 counterexample: explicitly passing the falsy `limit=0` to
`get_datapoints` drops the `limit` key, but omitting the argument
applies the truthy default `100`, which is sent — the two outgoing
bodies differ, so falsy is not the same as omitted for `limit` (and
likewise `sort`). -/
theorem C10_counterexample :
    (get_datapoints_body (Json.obj []) none none (some "desc") (some 0)).map
        Prod.fst = ["asset_datatypes", "sort"] ∧
    (get_datapoints_body (Json.obj []) none none (some "desc") (some 100)).map
        Prod.fst = ["asset_datatypes", "sort", "limit"] ∧
    (get_datapoints_body (Json.obj []) none none (some "desc") (some 0)).map
        Prod.fst ≠
      (get_datapoints_body (Json.obj []) none none (some "desc") (some 100)).map
        Prod.fst :=
  ⟨rfl, rfl, by decide⟩

/-- C10 (amended): every optional parameter is tested for truthiness,
so an explicitly passed falsy value (0, empty string, empty list)
produces no corresponding key or header, exactly as if `None` had been
passed; for parameters whose default is `None` (or the empty list)
this coincides with omitting the argument, while for `sort` and
`limit` omission applies the truthy defaults `'desc'`/`100`, which are
sent. -/
theorem C10_falsy_params :
    (∀ adt : Json, get_datapoints_body adt (some 0) (some 0) (some "") (some 0) =
      [("asset_datatypes", adt)]) ∧
    (∀ adt : Json, get_datapoints_body adt (some 0) (some 0) (some "") (some 0) =
      get_datapoints_body adt none none none none) ∧
    get_asset_datapoints_params [] (some 0) (some 0) (some "") (some 0) =
      get_asset_datapoints_params [] none none none none ∧
    (∀ tok : String, getHeaders tok (some "") = getHeaders tok none) ∧
    get_truck_tickets_params (some "") (some "") (some 0) (some 0) =
      get_truck_tickets_params none none none none ∧
    (∀ base aid : String, alarm_url base aid (some "") = alarm_url base aid none) :=
  ⟨fun _ => rfl, fun _ => rfl, rfl, fun _ => rfl, rfl, fun _ _ => rfl⟩

end Sotaog
